import Mathlib

/-!
Shallow embedding of `main.py` of TPDbCollectionMaker: the `Content` record
(title parsing via the two regexes, display title, rendering) and the
`ContentList` registry (the `add_content` grouping algorithm and `print`
rendering).  Python's mutable objects are modelled by explicit state passing;
the `KeyError` raised by indexing the bucket dictionary with an unknown
content type is modelled by `Option`.  Machine-independent data only: ids are
`Nat`, strings are Lean `String`s handled at the `List Char` level where the
regexes are concerned.
-/

/-! ### Character-level helpers (the regexes of `main.py`, lines 31-32) -/

/-- `\d` of the regexes restricted to ASCII decimal digits. -/
def isDigitChar (c : Char) : Bool := c.isDigit

/-- The `.` of the regexes: any character except a newline. -/
def dotChar (c : Char) : Bool := !(c == '\n')

/-- `listStartsWith p l` holds when `p` is a prefix of `l`. -/
def listStartsWith : List Char → List Char → Bool
  | [], _ => true
  | _ :: _, [] => false
  | p :: ps, c :: cs => p == c && listStartsWith ps cs

/-- Python's substring test `p in t`. -/
def strContains (p t : String) : Bool :=
  (List.range (t.data.length + 1)).any (fun i => listStartsWith p.data (t.data.drop i))

/-- `int()` applied to the digit string captured by `\d+`. -/
def digitsToNat (ds : List Char) : Nat :=
  ds.foldl (fun a c => a * 10 + (c.toNat - 48)) 0

/-- The tail admitted after `(.*)` by `YEARLESS_REGEX`
`^(.*) \(\d+\)($| - (Season \d+)|(Specials))`: a space, a parenthesised
nonempty digit run, then end of string, or ` - Season ` followed by a digit,
or (as literally written in the source, with no separator) `Specials`. -/
def yearRest (r : List Char) : Bool :=
  match r with
  | ' ' :: '(' :: r1 =>
    let ds := r1.takeWhile isDigitChar
    let r2 := r1.drop ds.length
    !(ds == []) &&
      (match r2 with
       | ')' :: r3 =>
         r3 == [] ||
         (listStartsWith (" - Season ").data r3 &&
           (match r3.drop 10 with
            | c :: _ => isDigitChar c
            | [] => false)) ||
         listStartsWith ("Specials").data r3
       | _ => false)
  | _ => false

/-- Position of group 1's end for `YEARLESS_REGEX.match`: the greedy `(.*)`
takes the longest newline-free prefix whose remainder satisfies `yearRest`. -/
def yearlessFind (cs : List Char) : Option Nat :=
  (List.range (cs.length + 1)).reverse.find?
    (fun i => (cs.take i).all dotChar && yearRest (cs.drop i))

/-- The suffix admitted after the greedy `.*` by `SEASON_REGEX`
`^.* - (?:Season (\d+)|(Specials))$`: either ` - Season ` followed by a
nonempty digit run reaching the end of the string, or exactly ` - Specials`. -/
def seasonRest (r : List Char) : Bool :=
  (listStartsWith (" - Season ").data r &&
    (let ds := r.drop 10
     !(ds == []) && ds.all isDigitChar)) ||
  r == (" - Specials").data

/-- `SEASON_REGEX.match` together with the group handling of `__init__`
(lines 57-64): `Specials` gives season `0`, otherwise the captured digits. -/
def seasonFind (cs : List Char) : Option Nat :=
  match (List.range (cs.length + 1)).reverse.find?
      (fun i => (cs.take i).all dotChar && seasonRest (cs.drop i)) with
  | none => none
  | some i =>
    let r := cs.drop i
    if listStartsWith (" - Season ").data r then some (digitsToNat (r.drop 10))
    else some 0

/-! ### `Content` (lines 25-119) -/

/-- The `Content` class: slots `poster_id`, `content_type`, `title`,
`use_year`, `must_quote`, `yearless_title`, `season_number`, `sub_content`.
The derived `url` slot is recovered by `Content.url` below. -/
inductive Content : Type where
  | mk (poster_id : Nat) (content_type : String) (title : String)
       (use_year : Bool) (must_quote : Bool) (yearless_title : String)
       (season_number : Option Nat) (sub_content : List (Option Nat × Content)) : Content

def Content.poster_id : Content → Nat
  | .mk a _ _ _ _ _ _ _ => a

def Content.content_type : Content → String
  | .mk _ a _ _ _ _ _ _ => a

def Content.title : Content → String
  | .mk _ _ a _ _ _ _ _ => a

def Content.use_year : Content → Bool
  | .mk _ _ _ a _ _ _ _ => a

def Content.must_quote : Content → Bool
  | .mk _ _ _ _ a _ _ _ => a

def Content.yearless_title : Content → String
  | .mk _ _ _ _ _ a _ _ => a

def Content.season_number : Content → Option Nat
  | .mk _ _ _ _ _ _ a _ => a

def Content.sub_content : Content → List (Option Nat × Content)
  | .mk _ _ _ _ _ _ _ a => a

/-- The assignment `self.use_year = ...`. -/
def Content.setUseYear : Content → Bool → Content
  | .mk pid ct t _ mq yt sn sub, b => .mk pid ct t b mq yt sn sub

/-- The assignment `self.sub_content = ...` (used to model the dictionary
update of `add_sub_content`). -/
def Content.setSub : Content → List (Option Nat × Content) → Content
  | .mk pid ct t uy mq yt sn _, sub => .mk pid ct t uy mq yt sn sub

/-- `POSTER_URL.format(id=...)` (line 28 / line 48). -/
def POSTER_URL (id : Nat) : String :=
  "https://theposterdb.com/api/assets/" ++ toString id

/-- The derived `url` slot, assigned once in `__init__` from `poster_id`. -/
def Content.url (c : Content) : String := POSTER_URL c.poster_id

/-- `Content.__init__` (lines 39-67): compute `must_quote`, the yearless
title via `YEARLESS_REGEX`, and reclassify to `Season` with a season number
when `SEASON_REGEX` matches. -/
def Content.parse (poster_id : Nat) (content_type : String) (title : String)
    (must_quote : Bool) : Content :=
  let mq := must_quote || strContains ": " title
  let yt :=
    match yearlessFind title.data with
    | none => title
    | some i => String.mk (title.data.take i)
  match seasonFind title.data with
  | none => .mk poster_id content_type title false mq yt none []
  | some n => .mk poster_id "Season" title false mq yt (some n) []

/-- `Content.final_title` (lines 70-78). -/
def Content.final_title (c : Content) : String :=
  let t := if c.use_year then c.title else c.yearless_title
  if c.must_quote then "\"" ++ t ++ "\"" else t

/-- `Content.is_sub_content_of` (lines 106-111). -/
def Content.is_sub_content_of (self content : Content) : Bool :=
  if !(self.content_type == "Season") || !(content.content_type == "Show") then false
  else content.yearless_title == self.yearless_title && strContains content.title self.title

/-- `Content.is_parent_content_of` (lines 114-115). -/
def Content.is_parent_content_of (self content : Content) : Bool :=
  content.is_sub_content_of self

/-- Python dictionary assignment `d[k] = v`: replace in place at an existing
key, otherwise append at the end. -/
def dictInsert : List (Option Nat × Content) → Option Nat → Content →
    List (Option Nat × Content)
  | [], k, v => [(k, v)]
  | (k', v') :: rest, k, v =>
    if k' == k then (k, v) :: rest else (k', v') :: dictInsert rest k v

/-- `Content.add_sub_content` (lines 118-119):
`self.sub_content[content.season_number] = content`. -/
def Content.add_sub_content (self content : Content) : Content :=
  self.setSub (dictInsert self.sub_content content.season_number content)

/-- `str(None)` / `str(n)` for the season number interpolated in `__str__`. -/
def pyStr : Option Nat → String
  | none => "None"
  | some n => toString n

/-- Python's `sorted` over the integer keys of `sub_content`, realised by a
stable merge sort of the (distinct-keyed) entries; `none` (unreachable
through `add_sub_content` on parsed records) is ordered as `0`. -/
def keyVal : Option Nat → Nat
  | none => 0
  | some n => n

def subLe (a b : Option Nat × Content) : Bool :=
  decide (keyVal a.1 ≤ keyVal b.1)

/-- `'sep'.join(strings)`. -/
def joinSep (sep : String) : List String → String
  | [] => ""
  | [s] => s
  | s :: rest => s ++ sep ++ joinSep sep rest

/-- `Content.__str__` (lines 89-103).  The source sorts the child keys and
looks each one up in the dictionary; since the keys are distinct, stably
sorting the (key, child) entries renders the children in the same order. -/
def Content.render (c : Content) : String :=
  if c.content_type == "Collection" || c.content_type == "Movie" then
    c.final_title ++ ":\n  url_poster: " ++ c.url
  else if c.content_type == "Show" then
    let base := c.final_title ++ ":\n  url_poster: " ++ c.url
    if 0 < c.sub_content.length then
      base ++ "\n  seasons:\n    " ++
        joinSep "\n    "
          ((c.sub_content.mergeSort subLe).attach.map (fun p => Content.render p.1.2))
    else base
  else if c.content_type == "Season" then
    pyStr c.season_number ++ ": \x7burl_poster: " ++ c.url ++ "\x7d"
  else
    "<Bad content type \"" ++ c.content_type ++ "\">"
termination_by sizeOf c
decreasing_by
  simp_wf
  rcases p with ⟨⟨k, d⟩, hp⟩
  rw [List.mem_mergeSort] at hp
  rcases c with ⟨pid, ct, t, uy, mq, yt, sn, sub⟩
  simp only [Content.sub_content] at hp
  have h1 := List.sizeOf_lt_of_mem hp
  simp only [Prod.mk.sizeOf_spec] at h1
  simp only [Content.mk.sizeOf_spec]
  omega

/-! ### `ContentList` (lines 122-164) -/

/-- The registry dictionary `{'Collection': [], 'Movie': [], 'Show': [],
'Season': []}`, one ordered bucket per key, in the source's key order. -/
structure ContentList where
  collections : List Content
  movies : List Content
  shows : List Content
  seasons : List Content

def ContentList.empty : ContentList := ⟨[], [], [], []⟩

/-- `self.content[k]`: `none` models the `KeyError` on an unknown key. -/
def ContentList.getBucket (r : ContentList) (k : String) : Option (List Content) :=
  if k == "Collection" then some r.collections
  else if k == "Movie" then some r.movies
  else if k == "Show" then some r.shows
  else if k == "Season" then some r.seasons
  else none

/-- `self.content[k].append(c)`. -/
def ContentList.appendBucket (r : ContentList) (k : String) (c : Content) :
    Option ContentList :=
  if k == "Collection" then some { r with collections := r.collections ++ [c] }
  else if k == "Movie" then some { r with movies := r.movies ++ [c] }
  else if k == "Show" then some { r with shows := r.shows ++ [c] }
  else if k == "Season" then some { r with seasons := r.seasons ++ [c] }
  else none

/-- Step 1 of `add_content` (lines 134-138): attach `new` to the first
existing show it is sub-content of, then stop. -/
def attachFirst (shows : List Content) (new : Content) : List Content :=
  match shows with
  | [] => []
  | e :: rest =>
    if new.is_sub_content_of e then e.add_sub_content new :: rest
    else e :: attachFirst rest new

/-- `ContentList.add_content` (lines 131-152).  In the source the record
attached to a show in step 1 is the same mutable object whose `use_year`
flag step 3 may later set and whose children step 2 fills in, so the
embedding computes the record's final field values first and attaches that
value; the fields the matching predicates read are unaffected.  The
collision scan of step 3 reads the unmodified bucket, as the source does
(steps 1-2 never change the titles or membership of any bucket).  `none`
models the `KeyError` raised by step 3 on an unknown `content_type`, which
in the source occurs after steps 1-2 have run as no-ops. -/
def ContentList.add_content (r : ContentList) (new : Content) : Option ContentList :=
  let adopted := r.seasons.foldl
    (fun acc e => if e.is_sub_content_of acc then acc.add_sub_content e else acc) new
  match r.getBucket new.content_type with
  | none => none
  | some bucket =>
    let final := if bucket.any (fun e => e.title == new.title)
                 then adopted.setUseYear true else adopted
    let r1 := { r with shows := attachFirst r.shows final }
    r1.appendBucket new.content_type final

/-- Folding a batch of records through `add_content` in document order. -/
def ContentList.addAll (r : ContentList) (cs : List Content) : Option ContentList :=
  cs.foldlM (fun acc c => acc.add_content c) r

/-- One iteration of the loop in `ContentList.print` (lines 154-164): a
divider and header then every record's block, each `print` call appending a
newline; empty buckets and the `Season` bucket produce nothing. -/
def sectionFor (name : String) (l : List Content) : String :=
  if l.length == 0 || name == "Season" then ""
  else "# " ++ String.mk (List.replicate 80 '-') ++ "\n# " ++ name ++ "s\n" ++
    String.join (l.map (fun c => c.render ++ "\n"))

/-- `ContentList.print` (lines 154-164): the full text written to stdout,
iterating the buckets in the dictionary's insertion order. -/
def ContentList.render (r : ContentList) : String :=
  sectionFor "Collection" r.collections ++ sectionFor "Movie" r.movies ++
    sectionFor "Show" r.shows ++ sectionFor "Season" r.seasons

/-! ### Shared helper lemmas -/

theorem Content.setUseYear_fields (c : Content) (b : Bool) :
    (c.setUseYear b).poster_id = c.poster_id ∧
    (c.setUseYear b).content_type = c.content_type ∧
    (c.setUseYear b).title = c.title ∧
    (c.setUseYear b).must_quote = c.must_quote ∧
    (c.setUseYear b).yearless_title = c.yearless_title ∧
    (c.setUseYear b).season_number = c.season_number ∧
    (c.setUseYear b).use_year = b := by
  rcases c with ⟨pid, ct, t, uy, mq, yt, sn, sub⟩
  exact ⟨rfl, rfl, rfl, rfl, rfl, rfl, rfl⟩

theorem Content.add_sub_content_fields (s d : Content) :
    (s.add_sub_content d).poster_id = s.poster_id ∧
    (s.add_sub_content d).content_type = s.content_type ∧
    (s.add_sub_content d).title = s.title ∧
    (s.add_sub_content d).use_year = s.use_year ∧
    (s.add_sub_content d).must_quote = s.must_quote ∧
    (s.add_sub_content d).yearless_title = s.yearless_title ∧
    (s.add_sub_content d).season_number = s.season_number := by
  rcases s with ⟨pid, ct, t, uy, mq, yt, sn, sub⟩
  exact ⟨rfl, rfl, rfl, rfl, rfl, rfl, rfl⟩

/-- The step-2 fold of `add_content` (adopting orphan seasons) changes only
the `sub_content` of the record being added. -/
theorem adoptFold_fields (seasons : List Content) (c : Content) :
    (seasons.foldl
        (fun acc e => if e.is_sub_content_of acc then acc.add_sub_content e else acc)
        c).poster_id = c.poster_id ∧
    (seasons.foldl
        (fun acc e => if e.is_sub_content_of acc then acc.add_sub_content e else acc)
        c).content_type = c.content_type ∧
    (seasons.foldl
        (fun acc e => if e.is_sub_content_of acc then acc.add_sub_content e else acc)
        c).title = c.title ∧
    (seasons.foldl
        (fun acc e => if e.is_sub_content_of acc then acc.add_sub_content e else acc)
        c).use_year = c.use_year := by
  induction seasons generalizing c with
  | nil => exact ⟨rfl, rfl, rfl, rfl⟩
  | cons e rest ih =>
    simp only [List.foldl_cons]
    by_cases h : e.is_sub_content_of c = true
    · rw [if_pos h]
      have hf := Content.add_sub_content_fields c e
      have := ih (c.add_sub_content e)
      exact ⟨by rw [this.1, hf.1], by rw [this.2.1, hf.2.1],
             by rw [this.2.2.1, hf.2.2.1], by rw [this.2.2.2, hf.2.2.2.1]⟩
    · rw [if_neg h]
      exact ih c

/-- A record whose `content_type` is not `"Season"` is sub-content of
nothing, so step 1 attaches it nowhere. -/
theorem attachFirst_of_not_season (shows : List Content) (c : Content)
    (h : c.content_type ≠ "Season") : attachFirst shows c = shows := by
  have hb : (c.content_type == "Season") = false := beq_eq_false_iff_ne.mpr h
  induction shows with
  | nil => rfl
  | cons e rest ih =>
    rw [attachFirst]
    rw [Content.is_sub_content_of]
    rw [hb]
    simp only [Bool.not_false, Bool.true_or, if_pos, if_neg (by decide : ¬false = true)]
    rw [ih]

/-! ### Claim C1 -/

/-- Claim C1 (evaluation at the failing input): for the raw title
`"X (2020) - Specials"` the code does NOT strip the year/Specials suffix —
`YEARLESS_REGEX`'s third alternative is the bare `(Specials)` with no
preceding `" - "`, so the regex fails to match and `yearless_title` stays the
full raw title, while the plain-year and `- Season N` shapes are stripped as
the claim states. -/
theorem c1_specials_not_stripped :
    (Content.parse 1 "Show" "X (2020) - Specials" false).yearless_title
        = "X (2020) - Specials" ∧
    (Content.parse 2 "Show" "X (2020)" false).yearless_title = "X" ∧
    (Content.parse 3 "Show" "X (2020) - Season 2" false).yearless_title = "X" := by
  exact ⟨rfl, rfl, rfl⟩

/-! ### Claim C2 -/

/-- Claim C2 (counterexample): a record whose `contentType` is none of the
four known values does NOT propagate through `add_content` — the bucket
lookup `self.content[new.content_type]` fails (`KeyError`, modelled by
`none`), so the add raises instead of passing the record through to
rendering. -/
theorem c2_unknown_type_add_raises :
    ContentList.empty.add_content (Content.parse 9 "Episode" "Foo" false) = none := by
  rfl

/-- Claim C2 (amended): a record with an unknown `contentType` renders as the
explicit bad-type placeholder when its block is rendered directly, but
`add_content` rejects it with a `KeyError` (modelled by `none`) rather than
propagating it into the registry. -/
theorem c2_unknown_type_behaviour (r : ContentList) (c : Content)
    (h : r.getBucket c.content_type = none) :
    r.add_content c = none ∧
      c.render = "<Bad content type \"" ++ c.content_type ++ "\">" := by
  have h1 : (c.content_type == "Collection") = false := by
    by_cases hx : (c.content_type == "Collection") = true
    · rw [ContentList.getBucket, if_pos hx] at h; cases h
    · simpa using hx
  have h2 : (c.content_type == "Movie") = false := by
    by_cases hx : (c.content_type == "Movie") = true
    · rw [ContentList.getBucket, h1, if_neg (by simp), if_pos hx] at h; cases h
    · simpa using hx
  have h3 : (c.content_type == "Show") = false := by
    by_cases hx : (c.content_type == "Show") = true
    · rw [ContentList.getBucket, h1, if_neg (by simp), h2, if_neg (by simp),
        if_pos hx] at h
      cases h
    · simpa using hx
  have h4 : (c.content_type == "Season") = false := by
    by_cases hx : (c.content_type == "Season") = true
    · rw [ContentList.getBucket, h1, if_neg (by simp), h2, if_neg (by simp), h3,
        if_neg (by simp), if_pos hx] at h
      cases h
    · simpa using hx
  constructor
  · rw [ContentList.add_content, h]
  · rw [Content.render, h1, h2, h3, h4]
    simp

/-- Claim C2 (witness for the amended theorem at a concrete record). -/
theorem c2_unknown_type_behaviour_witness :
    ContentList.empty.add_content (Content.parse 9 "Episode" "Bar" false) = none ∧
      (Content.parse 9 "Episode" "Bar" false).render =
        "<Bad content type \"" ++ (Content.parse 9 "Episode" "Bar" false).content_type ++ "\">" :=
  c2_unknown_type_behaviour ContentList.empty (Content.parse 9 "Episode" "Bar" false) rfl

/-! ### Claim C10 -/

/-- Claim C10: the renderer never emits the `Season` bucket at top level —
the output of `ContentList.print` is unchanged if the `Season` bucket is
emptied, so a season that was never attached to a show (and hence lives only
in that bucket) is silently absent from the output. -/
theorem c10_orphan_seasons_silent (r : ContentList) (xs : List Content) :
    ContentList.render { r with seasons := xs } =
      ContentList.render { r with seasons := [] } := by
  simp [ContentList.render, sectionFor]

/-! ### Claim C8 -/

/-- Claim C8: a raw title containing `": "` forces `must_quote = true` at
construction, whatever the caller's always-quote flag; a record with
`must_quote = true` renders its title line quoted; and the two mutations the
resolver performs (`use_year` assignment, child insertion) never change
`must_quote`. -/
theorem c8_colon_space_always_quoted (pid : Nat) (ct t : String) (mq : Bool)
    (h : strContains ": " t = true) :
    (Content.parse pid ct t mq).must_quote = true ∧
    (∀ c : Content, c.must_quote = true →
      c.final_title = "\"" ++ (if c.use_year then c.title else c.yearless_title) ++ "\"") ∧
    (∀ (c : Content) (b : Bool), (c.setUseYear b).must_quote = c.must_quote) ∧
    (∀ c d : Content, (c.add_sub_content d).must_quote = c.must_quote) := by
  refine ⟨?_, ?_, ?_, ?_⟩
  · rw [Content.parse]
    cases hs : seasonFind t.data <;> simp [Content.must_quote, h]
  · intro c hc
    rw [Content.final_title, hc]
    simp
  · intro c b
    exact (Content.setUseYear_fields c b).2.2.2.1
  · intro c d
    exact (Content.add_sub_content_fields c d).2.2.2.2.1

/-- Claim C8 (witness at a concrete colon-space title with the flag off). -/
theorem c8_colon_space_always_quoted_witness :
    strContains ": " "Foo: Bar (2001)" = true ∧
      (Content.parse 4 "Movie" "Foo: Bar (2001)" false).must_quote = true :=
  ⟨by decide, (c8_colon_space_always_quoted 4 "Movie" "Foo: Bar (2001)" false (by decide)).1⟩

/-! ### Claim C9 -/

/-- Inserting twice at the same key leaves only the second value: the Python
dictionary update of `add_sub_content`. -/
theorem dictInsert_override (l : List (Option Nat × Content)) (k : Option Nat)
    (v1 v2 : Content) :
    dictInsert (dictInsert l k v1) k v2 = dictInsert l k v2 := by
  induction l with
  | nil => simp [dictInsert]
  | cons hd tl ih =>
    rcases hd with ⟨k', v'⟩
    by_cases hk : (k' == k) = true
    · rw [dictInsert, if_pos hk, dictInsert, if_pos (by simp), dictInsert, if_pos hk]
    · rw [dictInsert, if_neg hk, dictInsert, if_neg hk, dictInsert, if_neg hk, ih]

/-- Claim C9: attaching two seasons with the same season number to a show
leaves only the later one — the show after both attachments equals the show
with just the later attachment, so the earlier season is absent from the
rendered season list as well. -/
theorem c9_same_number_replaces (s c1 c2 : Content)
    (h : c2.season_number = c1.season_number) :
    (s.add_sub_content c1).add_sub_content c2 = s.add_sub_content c2 ∧
      ((s.add_sub_content c1).add_sub_content c2).render = (s.add_sub_content c2).render := by
  have heq : (s.add_sub_content c1).add_sub_content c2 = s.add_sub_content c2 := by
    rcases s with ⟨pid, ct, t, uy, mq, yt, sn, sub⟩
    rw [Content.add_sub_content, Content.add_sub_content, Content.add_sub_content]
    simp only [Content.setSub, Content.sub_content]
    rw [h, dictInsert_override]
  exact ⟨heq, by rw [heq]⟩

/-- Claim C9 (witness at two concrete seasons both numbered 1). -/
theorem c9_same_number_replaces_witness :
    ((Content.parse 3 "Show" "Bar (2020)" false).add_sub_content
          (Content.parse 4 "Show" "Bar (2020) - Season 1" false)).add_sub_content
        (Content.parse 5 "Show" "Bar (2020) - Season 1" false) =
      (Content.parse 3 "Show" "Bar (2020)" false).add_sub_content
        (Content.parse 5 "Show" "Bar (2020) - Season 1" false) :=
  (c9_same_number_replaces (Content.parse 3 "Show" "Bar (2020)" false)
    (Content.parse 4 "Show" "Bar (2020) - Season 1" false)
    (Content.parse 5 "Show" "Bar (2020) - Season 1" false) rfl).1

/-! ### Claim C3 -/

/-- Claim C3 (counterexample): the registry reached by adding the show
`"Bar (2020)"` (poster 1), the season `"Bar (2020) - Season 1"` (poster 2),
then a second show `"Bar (2020)"` (poster 3) has the SAME season (poster 2)
as a child of BOTH shows: step 1 attached it to the first show, and step 2 of
the later show's add adopted it again without checking that it already had a
parent.  So a season does not belong to at most one show. -/
theorem c3_season_in_two_shows :
    (ContentList.empty.addAll
        [Content.parse 1 "Show" "Bar (2020)" false,
         Content.parse 2 "Show" "Bar (2020) - Season 1" false,
         Content.parse 3 "Show" "Bar (2020)" false]).map
      (fun r => r.shows.map (fun s => s.sub_content.map (fun p => p.2.poster_id)))
      = some [[2], [2]] := by
  rfl

/-- Does the show `s` hold a child with poster id `pid`? -/
def hasChildPid (s : Content) (pid : Nat) : Bool :=
  s.sub_content.any (fun p => p.2.poster_id == pid)

theorem dictInsert_self_mem (l : List (Option Nat × Content)) (k : Option Nat)
    (v : Content) : (k, v) ∈ dictInsert l k v := by
  induction l with
  | nil => exact List.mem_singleton.mpr rfl
  | cons hd tl ih =>
    rcases hd with ⟨k', v'⟩
    by_cases hk : (k' == k) = true
    · rw [dictInsert, if_pos hk]; exact List.mem_cons_self _ _
    · rw [dictInsert, if_neg hk]; exact List.mem_cons_of_mem _ ih

theorem hasChildPid_add_sub (e c : Content) :
    hasChildPid (e.add_sub_content c) c.poster_id = true := by
  rcases e with ⟨pid, ct, t, uy, mq, yt, sn, sub⟩
  rw [hasChildPid, Content.add_sub_content]
  simp only [Content.setSub, Content.sub_content]
  exact List.any_eq_true.mpr
    ⟨(c.season_number, c), dictInsert_self_mem _ _ _, by simp⟩

/-- Step 1 attaches the new record to at most one show: if no existing show
already holds a child with the record's poster id, at most one does after
`attachFirst`. -/
theorem countP_attachFirst (shows : List Content) (c : Content) (pid : Nat)
    (h : ∀ s ∈ shows, hasChildPid s pid = false) :
    (attachFirst shows c).countP (fun s => hasChildPid s pid) ≤ 1 := by
  induction shows with
  | nil => simp [attachFirst]
  | cons e rest ih =>
    rw [attachFirst]
    by_cases hm : c.is_sub_content_of e = true
    · rw [if_pos hm, List.countP_cons]
      have hz : rest.countP (fun s => hasChildPid s pid) = 0 :=
        List.countP_eq_zero.mpr (fun s hs => by
          simp [h s (List.mem_cons_of_mem _ hs)])
      rw [hz]
      split <;> omega
    · rw [if_neg hm, List.countP_cons]
      have he : (hasChildPid e pid : Bool) = false := h e (List.mem_cons_self _ _)
      rw [he]
      have := ih (fun s hs => h s (List.mem_cons_of_mem _ hs))
      simpa using this

theorem appendBucket_shows (r : ContentList) (k : String) (c : Content)
    (r' : ContentList) (h : r.appendBucket k c = some r') :
    r'.shows = r.shows ∨ r'.shows = r.shows ++ [c] ∧ k = "Show" := by
  rw [ContentList.appendBucket] at h
  by_cases h1 : (k == "Collection") = true
  · rw [if_pos h1] at h; cases h; exact Or.inl rfl
  · rw [if_neg h1] at h
    by_cases h2 : (k == "Movie") = true
    · rw [if_pos h2] at h; cases h; exact Or.inl rfl
    · rw [if_neg h2] at h
      by_cases h3 : (k == "Show") = true
      · rw [if_pos h3] at h; cases h
        exact Or.inr ⟨rfl, by simpa using h3⟩
      · rw [if_neg h3] at h
        by_cases h4 : (k == "Season") = true
        · rw [if_pos h4] at h; cases h; exact Or.inl rfl
        · rw [if_neg h4] at h; cases h

/-- Claim C3 (amended): during a single `add_content` call the new record is
attached as a child to at most one show — the first match of step 1 — so if
no existing show already holds a record with the new record's poster id, at
most one show does afterwards.  (Across several calls the bound fails, as
the counterexample shows: a later show's step 2 re-adopts an attached
season.) -/
theorem c3_attach_at_most_one_show (r : ContentList) (c : Content)
    (r' : ContentList) (hadd : r.add_content c = some r')
    (h : ∀ s ∈ r.shows, hasChildPid s c.poster_id = false) :
    r'.shows.countP (fun s => hasChildPid s c.poster_id) ≤ 1 := by
  rw [ContentList.add_content] at hadd
  cases hb : r.getBucket c.content_type with
  | none => rw [hb] at hadd; exact absurd hadd (by simp)
  | some bucket =>
    rw [hb] at hadd
    simp only at hadd
    set A := r.seasons.foldl
      (fun acc e => if e.is_sub_content_of acc then acc.add_sub_content e else acc) c with hA
    set F : Content := if bucket.any (fun e => e.title == c.title)
      then A.setUseYear true else A with hF
    have hFpid : F.poster_id = c.poster_id := by
      rw [hF]
      by_cases hcol : bucket.any (fun e => e.title == c.title) = true
      · rw [if_pos hcol, (Content.setUseYear_fields A true).1, hA,
          (adoptFold_fields r.seasons c).1]
      · rw [if_neg hcol, hA, (adoptFold_fields r.seasons c).1]
    have happ : ContentList.appendBucket
        { r with shows := attachFirst r.shows F } c.content_type F = some r' := hadd
    have hcount : (attachFirst r.shows F).countP
        (fun s => hasChildPid s c.poster_id) ≤ 1 := by
      have := countP_attachFirst r.shows F c.poster_id h
      exact this
    rcases appendBucket_shows _ _ _ _ happ with hsh | ⟨hsh, hkey⟩
    · rw [hsh]
      exact hcount
    · rw [hsh]
      have hct : c.content_type = "Show" := hkey
      have hFct : F.content_type = "Show" := by
        rw [hF]
        by_cases hcol : bucket.any (fun e => e.title == c.title) = true
        · rw [if_pos hcol, (Content.setUseYear_fields A true).2.1, hA,
            (adoptFold_fields r.seasons c).2.1, hct]
        · rw [if_neg hcol, hA, (adoptFold_fields r.seasons c).2.1, hct]
      have hid : attachFirst r.shows F = r.shows :=
        attachFirst_of_not_season r.shows F (by rw [hFct]; decide)
      rw [List.countP_append]
      have hz : ({ r with shows := attachFirst r.shows F } : ContentList).shows.countP
          (fun s => hasChildPid s c.poster_id) = 0 := by
        simp only [hid]
        exact List.countP_eq_zero.mpr (fun s hs => by simp [h s hs])
      simp only [hid] at hz ⊢
      rw [hz]
      simp [List.countP_cons]
      split <;> omega

/-! ### Claim C5 -/

/-- Abbreviation for the final field values of the record built inside
`add_content` (the object the source mutates in place): children adopted by
step 2, `use_year` set by step 3's collision scan over the record's own
bucket `b`. -/
def addFinal (r : ContentList) (b : List Content) (c : Content) : Content :=
  let adopted := r.seasons.foldl
    (fun acc e => if e.is_sub_content_of acc then acc.add_sub_content e else acc) c
  if b.any (fun e => e.title == c.title) then adopted.setUseYear true else adopted

/-- Unfolding of `add_content` when the bucket lookup succeeds. -/
theorem add_content_eq (r : ContentList) (c : Content) (b : List Content)
    (hb : r.getBucket c.content_type = some b) :
    r.add_content c =
      ContentList.appendBucket
        { r with shows := attachFirst r.shows (addFinal r b c) }
        c.content_type (addFinal r b c) := by
  rw [ContentList.add_content, hb]
  exact rfl

theorem addFinal_fields (r : ContentList) (b : List Content) (c : Content) :
    (addFinal r b c).poster_id = c.poster_id ∧
    (addFinal r b c).content_type = c.content_type ∧
    (addFinal r b c).title = c.title ∧
    (addFinal r b c).use_year =
      (if b.any (fun e => e.title == c.title) then true else c.use_year) := by
  rw [addFinal]
  have hf := adoptFold_fields r.seasons c
  by_cases hcol : b.any (fun e => e.title == c.title) = true
  · simp only [hcol, if_pos]
    have hs := Content.setUseYear_fields
      (r.seasons.foldl
        (fun acc e => if e.is_sub_content_of acc then acc.add_sub_content e else acc) c) true
    exact ⟨by rw [hs.1, hf.1], by rw [hs.2.1, hf.2.1], by rw [hs.2.2.1, hf.2.2.1],
      by rw [hs.2.2.2.2.2.2]⟩
  · simp only [Bool.not_eq_true] at hcol
    simp only [hcol]
    exact ⟨by simpa using hf.1, by simpa using hf.2.1, by simpa using hf.2.2.1,
      by simpa using hf.2.2.2⟩

/-- Claim C5: when a record is added and its own-type bucket already holds
`b`, the add succeeds, the bucket afterwards is exactly `b` (every earlier
record untouched, `use_year` included) followed by the new record's final
value, whose `use_year` is `true` exactly when some earlier record of the
bucket has the same raw title, and is otherwise the incoming flag. -/
theorem c5_collision_marks_only_newcomer (r : ContentList) (c : Content)
    (b : List Content) (hb : r.getBucket c.content_type = some b) :
    ∃ (r' : ContentList) (c' : Content),
      r.add_content c = some r' ∧
      r'.getBucket c.content_type = some (b ++ [c']) ∧
      c'.title = c.title ∧
      c'.use_year = (if b.any (fun e => e.title == c.title) then true else c.use_year) := by
  have hfields := addFinal_fields r b c
  have hadd := add_content_eq r c b hb
  by_cases h1 : (c.content_type == "Collection") = true
  · have hct : c.content_type = "Collection" := by simpa using h1
    have hbb : b = r.collections := by
      rw [ContentList.getBucket, hct] at hb
      simpa using hb.symm
    have hadd2 : r.add_content c = some
        { r with shows := attachFirst r.shows (addFinal r b c),
                 collections := r.collections ++ [addFinal r b c] } := by
      rw [hadd, hct]
      exact rfl
    refine ⟨_, addFinal r b c, hadd2, ?_, hfields.2.2.1, hfields.2.2.2⟩
    rw [ContentList.getBucket, hct]
    simp [hbb]
  · by_cases h2 : (c.content_type == "Movie") = true
    · have hct : c.content_type = "Movie" := by simpa using h2
      have hbb : b = r.movies := by
        rw [ContentList.getBucket, hct] at hb
        simpa using hb.symm
      have hadd2 : r.add_content c = some
          { r with shows := attachFirst r.shows (addFinal r b c),
                   movies := r.movies ++ [addFinal r b c] } := by
        rw [hadd, hct]
        exact rfl
      refine ⟨_, addFinal r b c, hadd2, ?_, hfields.2.2.1, hfields.2.2.2⟩
      rw [ContentList.getBucket, hct]
      simp [hbb]
    · by_cases h3 : (c.content_type == "Show") = true
      · have hct : c.content_type = "Show" := by simpa using h3
        have hbb : b = r.shows := by
          rw [ContentList.getBucket, hct] at hb
          simpa using hb.symm
        have hid : attachFirst r.shows (addFinal r b c) = r.shows :=
          attachFirst_of_not_season r.shows (addFinal r b c)
            (by rw [hfields.2.1, hct]; decide)
        have hadd2 : r.add_content c = some
            { r with shows := attachFirst r.shows (addFinal r b c) ++ [addFinal r b c] } := by
          rw [hadd, hct]
          exact rfl
        refine ⟨_, addFinal r b c, hadd2, ?_, hfields.2.2.1, hfields.2.2.2⟩
        rw [ContentList.getBucket, hct]
        simp only [ContentList.shows]
        rw [hid, ← hbb]
        simp
      · by_cases h4 : (c.content_type == "Season") = true
        · have hct : c.content_type = "Season" := by simpa using h4
          have hbb : b = r.seasons := by
            rw [ContentList.getBucket, hct] at hb
            simpa using hb.symm
          have hadd2 : r.add_content c = some
              { r with shows := attachFirst r.shows (addFinal r b c),
                       seasons := r.seasons ++ [addFinal r b c] } := by
            rw [hadd, hct]
            exact rfl
          refine ⟨_, addFinal r b c, hadd2, ?_, hfields.2.2.1, hfields.2.2.2⟩
          rw [ContentList.getBucket, hct]
          simp [hbb]
        · exfalso
          rw [ContentList.getBucket, if_neg h1, if_neg h2, if_neg h3, if_neg h4] at hb
          cases hb

/-- Claim C5 (witness: two movies with the same raw title, applied to the
registry that already holds the first one). -/
theorem c5_collision_marks_only_newcomer_witness :
    ∃ (r' : ContentList) (c' : Content),
      ContentList.add_content
        ⟨[], [Content.parse 1 "Movie" "Alpha" false], [], []⟩
        (Content.parse 2 "Movie" "Alpha" false) = some r' ∧
      r'.getBucket (Content.parse 2 "Movie" "Alpha" false).content_type =
        some ([Content.parse 1 "Movie" "Alpha" false] ++ [c']) ∧
      c'.title = (Content.parse 2 "Movie" "Alpha" false).title ∧
      c'.use_year =
        (if [Content.parse 1 "Movie" "Alpha" false].any
            (fun e => e.title == (Content.parse 2 "Movie" "Alpha" false).title)
         then true else (Content.parse 2 "Movie" "Alpha" false).use_year) :=
  c5_collision_marks_only_newcomer
    ⟨[], [Content.parse 1 "Movie" "Alpha" false], [], []⟩
    (Content.parse 2 "Movie" "Alpha" false)
    [Content.parse 1 "Movie" "Alpha" false] rfl

/-! ### Claim C4 -/

/-- Matching a season against a show only reads fields `is_sub_content_of`
inspects, so it forces the two content types. -/
theorem is_sub_content_of_types (t s : Content) (h : t.is_sub_content_of s = true) :
    t.content_type = "Season" ∧ s.content_type = "Show" := by
  by_cases hcond : (!(t.content_type == "Season") || !(s.content_type == "Show")) = true
  · rw [Content.is_sub_content_of, if_pos hcond] at h
    cases h
  · simp only [Bool.or_eq_true, Bool.not_eq_true', beq_eq_false_iff_ne, not_or,
      Decidable.not_not] at hcond
    exact hcond

/-- Claim C4: for a show `s` and a season `t` that matches it (equal yearless
titles, `s`'s raw title a substring of `t`'s — exactly `is_sub_content_of`),
adding the season before the show produces the same registry as adding the
show before the season: the final nested structure is order-independent. -/
theorem c4_attach_order_independent (s t : Content)
    (h : t.is_sub_content_of s = true) :
    ContentList.empty.addAll [s, t] = ContentList.empty.addAll [t, s] := by
  obtain ⟨h1, h2⟩ := is_sub_content_of_types t s h
  have e1 : ContentList.empty.add_content s = some ⟨[], [], [s], []⟩ := by
    have hb : ContentList.empty.getBucket s.content_type = some [] := by
      rw [h2]
      rfl
    rw [add_content_eq _ _ _ hb, h2]
    exact rfl
  have e2 : ContentList.empty.add_content t = some ⟨[], [], [], [t]⟩ := by
    have hb : ContentList.empty.getBucket t.content_type = some [] := by
      rw [h1]
      rfl
    rw [add_content_eq _ _ _ hb, h1]
    exact rfl
  have e3 : ContentList.add_content ⟨[], [], [s], []⟩ t =
      some ⟨[], [], [s.add_sub_content t], [t]⟩ := by
    have hb : ContentList.getBucket ⟨[], [], [s], []⟩ t.content_type = some [] := by
      rw [h1]
      rfl
    rw [add_content_eq _ _ _ hb, h1]
    show ContentList.appendBucket ⟨[], [], attachFirst [s] t, []⟩ "Season" t = _
    rw [attachFirst, if_pos h]
    exact rfl
  have e4 : ContentList.add_content ⟨[], [], [], [t]⟩ s =
      some ⟨[], [], [s.add_sub_content t], [t]⟩ := by
    have hb : ContentList.getBucket ⟨[], [], [], [t]⟩ s.content_type = some [] := by
      rw [h2]
      rfl
    rw [add_content_eq _ _ _ hb, h2]
    show ContentList.appendBucket ⟨[], [], [], [t]⟩ "Show"
        (if t.is_sub_content_of s then s.add_sub_content t else s) = _
    rw [if_pos h]
    exact rfl
  simp [ContentList.addAll, List.foldlM, e1, e2, e3, e4]

/-- Claim C4 (witness at a concrete show/season pair). -/
theorem c4_attach_order_independent_witness :
    ContentList.empty.addAll
        [Content.parse 1 "Show" "Bar (2020)" false,
         Content.parse 2 "Show" "Bar (2020) - Season 1" false] =
      ContentList.empty.addAll
        [Content.parse 2 "Show" "Bar (2020) - Season 1" false,
         Content.parse 1 "Show" "Bar (2020)" false] :=
  c4_attach_order_independent (Content.parse 1 "Show" "Bar (2020)" false)
    (Content.parse 2 "Show" "Bar (2020) - Season 1" false) (by decide)

/-! ### Claim C7 -/

/-- Claim C7: a `Show` with a nonempty child mapping (all children seasons,
keyed by their own season numbers, as `add_sub_content` guarantees) renders
as its title/URL block followed by the season lines in ascending season-number
order — some reordering `l` of the children that is sorted on the keys —
independent of the order of attachment, each line being
`seasonNumber: {url_poster: https://theposterdb.com/api/assets/id}`. -/
theorem c7_show_renders_seasons_sorted (c : Content)
    (hty : c.content_type = "Show") (hne : 0 < c.sub_content.length)
    (hkids : ∀ p ∈ c.sub_content, p.2.content_type = "Season" ∧ p.1 = p.2.season_number) :
    ∃ l : List (Option Nat × Content),
      c.sub_content.Perm l ∧
      (l.map (fun p => keyVal p.1)).Sorted (· ≤ ·) ∧
      c.render = c.final_title ++ ":\n  url_poster: " ++ c.url ++ "\n  seasons:\n    " ++
        joinSep "\n    " (l.map (fun p => p.2.render)) ∧
      ∀ p ∈ l, p.2.render =
        pyStr p.2.season_number ++ ": \x7burl_poster: " ++
          POSTER_URL p.2.poster_id ++ "\x7d" := by
  refine ⟨c.sub_content.mergeSort subLe, (List.mergeSort_perm _ _).symm, ?_, ?_, ?_⟩
  · have htrans : ∀ a b c' : Option Nat × Content,
        subLe a b = true → subLe b c' = true → subLe a c' = true := by
      intro a b c' hab hbc
      simp only [subLe, decide_eq_true_eq] at hab hbc ⊢
      omega
    have htotal : ∀ a b : Option Nat × Content, (subLe a b || subLe b a) = true := by
      intro a b
      simp only [subLe, Bool.or_eq_true, decide_eq_true_eq]
      omega
    have hp := List.sorted_mergeSort htrans htotal c.sub_content
    exact hp.map _ (fun a b hab => by
      simpa only [subLe, decide_eq_true_eq] using hab)
  · rw [Content.render, hty]
    simp only [List.attach_map_val]
    have h1 : (("Show" == "Collection") || ("Show" == "Movie")) = false := by decide
    rw [h1]
    simp only [Bool.false_eq_true, if_false, if_pos hne,
      if_pos (by decide : ("Show" == "Show") = true)]
    rw [List.attach_map_val (c.sub_content.mergeSort subLe) (fun p => Content.render p.2)]
  · intro p hp
    rw [List.mem_mergeSort] at hp
    obtain ⟨hct, hkey⟩ := hkids p hp
    rw [Content.render, hct, Content.url]
    simp

/-- A concrete show with seasons attached in the order 2, 0, 1, exercising
the sorting claim. -/
def unsortedShow : Content :=
  (((Content.parse 1 "Show" "Z (2020)" false).add_sub_content
      (Content.parse 2 "Show" "Z (2020) - Season 2" false)).add_sub_content
      (Content.parse 3 "Show" "Z (2020) - Specials" false)).add_sub_content
      (Content.parse 4 "Show" "Z (2020) - Season 1" false)

/-- Claim C7 (witness at `unsortedShow`). -/
theorem c7_show_renders_seasons_sorted_witness :
    ∃ l : List (Option Nat × Content),
      unsortedShow.sub_content.Perm l ∧
      (l.map (fun p => keyVal p.1)).Sorted (· ≤ ·) ∧
      unsortedShow.render = unsortedShow.final_title ++ ":\n  url_poster: " ++
        unsortedShow.url ++ "\n  seasons:\n    " ++
        joinSep "\n    " (l.map (fun p => p.2.render)) ∧
      ∀ p ∈ l, p.2.render =
        pyStr p.2.season_number ++ ": \x7burl_poster: " ++
          POSTER_URL p.2.poster_id ++ "\x7d" :=
  c7_show_renders_seasons_sorted unsortedShow (by decide) (by decide) (by decide)

/-! ### Claim C6 -/

theorem listStartsWith_iff (p l : List Char) :
    listStartsWith p l = true ↔ ∃ s, l = p ++ s := by
  induction p generalizing l with
  | nil => simp [listStartsWith]
  | cons a ps ih =>
    cases l with
    | nil => simp [listStartsWith]
    | cons b bs =>
      rw [listStartsWith]
      simp only [Bool.and_eq_true, beq_iff_eq]
      constructor
      · rintro ⟨hab, h⟩
        obtain ⟨s, hs⟩ := (ih bs).mp h
        exact ⟨s, by rw [hab, hs]; rfl⟩
      · rintro ⟨s, hs⟩
        injection hs with h1 h2
        exact ⟨h1.symm, (ih bs).mpr ⟨s, h2⟩⟩

/-- The two shapes a suffix accepted by `seasonRest` can take. -/
theorem seasonRest_cases (r : List Char) (h : seasonRest r = true) :
    (∃ ds, r = (" - Season ").data ++ ds ∧ ds ≠ [] ∧ ∀ ch ∈ ds, ch.isDigit = true) ∨
    r = (" - Specials").data := by
  rw [seasonRest] at h
  simp only [Bool.or_eq_true, Bool.and_eq_true, beq_iff_eq] at h
  rcases h with ⟨hsw, hds⟩ | heq
  · obtain ⟨s, hs⟩ := (listStartsWith_iff _ _).mp hsw
    left
    have hdrop : r.drop 10 = s := by
      rw [hs]
      exact List.drop_left (" - Season ").data s
    simp only [hdrop] at hds
    simp only [Bool.and_eq_true, Bool.not_eq_true', beq_eq_false_iff_ne] at hds
    exact ⟨s, hs, hds.1, List.all_eq_true.mp hds.2⟩
  · exact Or.inr heq

/-- Every suffix accepted by `seasonRest` begins with the four characters
`" - S"`. -/
theorem seasonRest_head (r : List Char) (h : seasonRest r = true) :
    ∃ s, r = ' ' :: '-' :: ' ' :: 'S' :: s := by
  rcases seasonRest_cases r h with ⟨ds, hds, _, _⟩ | hsp
  · exact ⟨'e' :: 'a' :: 's' :: 'o' :: 'n' :: ' ' :: ds, by rw [hds]; try rfl⟩
  · exact ⟨'p' :: 'e' :: 'c' :: 'i' :: 'a' :: 'l' :: 's' :: [], by rw [hsp]; try rfl⟩

/-- At most one split position can satisfy `seasonRest`: the accepted suffix
is either all digits after `" - Season "` or exactly `" - Specials"`, and
neither shape can contain the `" - S"` head of another accepted suffix
strictly inside it. -/
theorem seasonRest_lt_absurd (cs : List Char) (i j : Nat) (hij : i < j)
    (hi : seasonRest (cs.drop i) = true) (hj : seasonRest (cs.drop j) = true) :
    False := by
  obtain ⟨s, hs⟩ := seasonRest_head _ hj
  have hj0 : cs[j]? = some ' ' := by
    have h0 := List.getElem?_drop cs j 0
    rw [hs] at h0
    simpa using h0.symm
  have hj1 : cs[j + 1]? = some '-' := by
    have h1 := List.getElem?_drop cs j 1
    rw [hs] at h1
    simpa using h1.symm
  obtain ⟨k, hk, hk0⟩ : ∃ k, j = i + k ∧ 0 < k := ⟨j - i, by omega, by omega⟩
  rcases seasonRest_cases _ hi with ⟨ds, hds, hne, hdig⟩ | hsp
  · -- cs.drop i = " - Season " ++ ds, everything from position i+10 on a digit
    have e0 : cs[j]? = ((" - Season ").data ++ ds)[k]? := by
      rw [hk, ← List.getElem?_drop, hds]
    have e1 : cs[j + 1]? = ((" - Season ").data ++ ds)[k + 1]? := by
      rw [hk, show i + k + 1 = i + (k + 1) by omega, ← List.getElem?_drop, hds]
    by_cases hklt : k < 10
    · have hsp0 : ((" - Season ").data ++ ds)[k]? = some ' ' := by rw [← e0, hj0]
      rw [List.getElem?_append] at hsp0
      simp only [show ((" - Season ").data).length = 10 from rfl, hklt, if_pos] at hsp0
      interval_cases k
      · exact absurd hsp0 (by decide)
      · -- k = 2 : the next character must be '-' but is 'S'
        have hsp1 : ((" - Season ").data ++ ds)[3]? = some '-' := by rw [← e1, hj1]
        rw [List.getElem?_append] at hsp1
        simp only [show ((" - Season ").data).length = 10 from rfl] at hsp1
        norm_num at hsp1
        exact absurd hsp1 (by decide)
      · exact absurd hsp0 (by decide)
      · exact absurd hsp0 (by decide)
      · exact absurd hsp0 (by decide)
      · exact absurd hsp0 (by decide)
      · exact absurd hsp0 (by decide)
      · exact absurd hsp0 (by decide)
      · -- k = 9 : the next character must be '-' but is the first digit
        have hsp1 : ((" - Season ").data ++ ds)[10]? = some '-' := by rw [← e1, hj1]
        rw [List.getElem?_append] at hsp1
        simp only [show ((" - Season ").data).length = 10 from rfl] at hsp1
        norm_num at hsp1
        have : '-' ∈ ds := List.getElem?_mem hsp1
        have := hdig '-' this
        exact absurd this (by decide)
    · have hsp0 : ((" - Season ").data ++ ds)[k]? = some ' ' := by rw [← e0, hj0]
      rw [List.getElem?_append] at hsp0
      simp only [show ((" - Season ").data).length = 10 from rfl, hklt, if_neg] at hsp0
      have : ' ' ∈ ds := List.getElem?_mem hsp0
      have := hdig ' ' this
      exact absurd this (by decide)
  · -- cs.drop i = " - Specials"
    have e0 : cs[j]? = ((" - Specials").data)[k]? := by
      rw [hk, ← List.getElem?_drop, hsp]
    have e1 : cs[j + 1]? = ((" - Specials").data)[k + 1]? := by
      rw [hk, show i + k + 1 = i + (k + 1) by omega, ← List.getElem?_drop, hsp]
    by_cases hklt : k < 11
    · have hsp0 : ((" - Specials").data)[k]? = some ' ' := by rw [← e0, hj0]
      interval_cases k
      · exact absurd hsp0 (by decide)
      · -- k = 2
        have hsp1 : ((" - Specials").data)[3]? = some '-' := by rw [← e1, hj1]
        exact absurd hsp1 (by decide)
      · exact absurd hsp0 (by decide)
      · exact absurd hsp0 (by decide)
      · exact absurd hsp0 (by decide)
      · exact absurd hsp0 (by decide)
      · exact absurd hsp0 (by decide)
      · exact absurd hsp0 (by decide)
      · exact absurd hsp0 (by decide)
      · exact absurd hsp0 (by decide)
    · have hnone : ((" - Specials").data)[k]? = none :=
        List.getElem?_eq_none (by simpa using hklt)
      rw [hnone] at e0
      rw [hj0] at e0
      cases e0

theorem seasonSplit_unique (cs : List Char) (i j : Nat)
    (hi : seasonRest (cs.drop i) = true) (hj : seasonRest (cs.drop j) = true) :
    i = j := by
  rcases Nat.lt_trichotomy i j with h | h | h
  · exact (seasonRest_lt_absurd cs i j h hi hj).elim
  · exact h
  · exact (seasonRest_lt_absurd cs j i h hj hi).elim

/-- Claim C6's season-suffix pattern, stated from the spec's words: the raw
title is an arbitrary (newline-free) prefix followed by ` - Season N` — a
nonempty digit run reaching the end — with value the parsed integer, or by
` - Specials` with value `0`. -/
def SeasonSuffixSpec (cs : List Char) (n : Nat) : Prop :=
  (∃ pre ds, (∀ ch ∈ pre, ch ≠ '\n') ∧ ds ≠ [] ∧ (∀ ch ∈ ds, ch.isDigit = true) ∧
     cs = pre ++ (" - Season ").data ++ ds ∧ n = digitsToNat ds) ∨
  ((∃ pre, (∀ ch ∈ pre, ch ≠ '\n') ∧ cs = pre ++ (" - Specials").data) ∧ n = 0)

theorem seasonPred_of_season (cs pre ds : List Char)
    (hnl : ∀ ch ∈ pre, ch ≠ '\n') (hne : ds ≠ []) (hdig : ∀ ch ∈ ds, ch.isDigit = true)
    (hcs : cs = pre ++ (" - Season ").data ++ ds) :
    ((cs.take pre.length).all dotChar && seasonRest (cs.drop pre.length)) = true ∧
    cs.drop pre.length = (" - Season ").data ++ ds := by
  have hassoc : cs = pre ++ ((" - Season ").data ++ ds) := by rw [hcs, List.append_assoc]
  have ht : cs.take pre.length = pre := by rw [hassoc]; exact List.take_left _ _
  have hd : cs.drop pre.length = (" - Season ").data ++ ds := by
    rw [hassoc]; exact List.drop_left _ _
  refine ⟨?_, hd⟩
  rw [ht, hd]
  simp only [Bool.and_eq_true]
  constructor
  · exact List.all_eq_true.mpr (fun ch hch => by simp [dotChar, hnl ch hch])
  · rw [seasonRest]
    simp only [Bool.or_eq_true, Bool.and_eq_true]
    left
    constructor
    · exact (listStartsWith_iff _ _).mpr ⟨ds, rfl⟩
    · have h10 : ((" - Season ").data).length = 10 := rfl
      have hdrop : ((" - Season ").data ++ ds).drop 10 = ds := by
        rw [← h10]; exact List.drop_left _ _
      rw [hdrop]
      constructor
      · simp [hne]
      · exact List.all_eq_true.mpr (fun ch hch => hdig ch hch)

theorem seasonPred_of_specials (cs pre : List Char)
    (hnl : ∀ ch ∈ pre, ch ≠ '\n') (hcs : cs = pre ++ (" - Specials").data) :
    ((cs.take pre.length).all dotChar && seasonRest (cs.drop pre.length)) = true ∧
    cs.drop pre.length = (" - Specials").data := by
  have ht : cs.take pre.length = pre := by rw [hcs]; exact List.take_left _ _
  have hd : cs.drop pre.length = (" - Specials").data := by
    rw [hcs]; exact List.drop_left _ _
  refine ⟨?_, hd⟩
  rw [ht, hd]
  simp only [Bool.and_eq_true]
  constructor
  · exact List.all_eq_true.mpr (fun ch hch => by simp [dotChar, hnl ch hch])
  · rw [seasonRest]
    simp

theorem seasonFind_iff_spec (cs : List Char) (n : Nat) :
    seasonFind cs = some n ↔ SeasonSuffixSpec cs n := by
  constructor
  · intro h
    cases hf : (List.range (cs.length + 1)).reverse.find?
        (fun i => (cs.take i).all dotChar && seasonRest (cs.drop i)) with
    | none =>
      rw [seasonFind, hf] at h
      simp at h
    | some i =>
      have hp := List.find?_some hf
      simp only [Bool.and_eq_true] at hp
      obtain ⟨hdot, hrest⟩ := hp
      have hval : seasonFind cs = (if listStartsWith (" - Season ").data (cs.drop i)
          then some (digitsToNat ((cs.drop i).drop 10)) else some 0) := by
        rw [seasonFind, hf]
        try rfl
        try exact rfl
      rw [hval] at h
      rcases seasonRest_cases _ hrest with ⟨ds, hds, hne, hdig⟩ | hsp
      · have hif : listStartsWith (" - Season ").data (cs.drop i) = true :=
          (listStartsWith_iff _ _).mpr ⟨ds, hds⟩
        rw [if_pos hif] at h
        injection h with h'
        have hdrop : (cs.drop i).drop 10 = ds := by
          rw [hds, show (10 : Nat) = ((" - Season ").data).length from rfl]
          exact List.drop_left _ _
        left
        refine ⟨cs.take i, ds, ?_, hne, hdig, ?_, ?_⟩
        · intro ch hch
          have := List.all_eq_true.mp hdot ch hch
          simpa [dotChar] using this
        · conv_lhs => rw [← List.take_append_drop i cs]
          rw [hds, ← List.append_assoc]
        · rw [← h', hdrop]
      · have hif : listStartsWith (" - Season ").data (cs.drop i) = false := by
          rw [hsp]; decide
        rw [hif] at h
        simp only [Bool.false_eq_true, if_false] at h
        injection h with h'
        right
        refine ⟨⟨cs.take i, ?_, ?_⟩, h'.symm⟩
        · intro ch hch
          have := List.all_eq_true.mp hdot ch hch
          simpa [dotChar] using this
        · conv_lhs => rw [← List.take_append_drop i cs]
          rw [hsp]
  · intro hs
    rcases hs with ⟨pre, ds, hnl, hne, hdig, hcs, hn⟩ | ⟨⟨pre, hnl, hcs⟩, hn⟩
    · obtain ⟨hpred, hd⟩ := seasonPred_of_season cs pre ds hnl hne hdig hcs
      have hmem : pre.length ∈ (List.range (cs.length + 1)).reverse := by
        rw [List.mem_reverse, List.mem_range, hcs]
        simp only [List.length_append]
        omega
      have hex : ((List.range (cs.length + 1)).reverse.find?
          (fun i => (cs.take i).all dotChar && seasonRest (cs.drop i))).isSome = true :=
        List.find?_isSome.mpr ⟨pre.length, hmem, hpred⟩
      obtain ⟨j, hj⟩ := Option.isSome_iff_exists.mp hex
      have hpj := List.find?_some hj
      simp only [Bool.and_eq_true] at hpj
      have hji : j = pre.length := by
        refine seasonSplit_unique cs j pre.length hpj.2 ?_
        have := hpred
        simp only [Bool.and_eq_true] at this
        exact this.2
      subst hji
      have hval : seasonFind cs = (if listStartsWith (" - Season ").data (cs.drop pre.length)
          then some (digitsToNat ((cs.drop pre.length).drop 10)) else some 0) := by
        rw [seasonFind, hj]
        try rfl
        try exact rfl
      rw [hval, hd, if_pos ((listStartsWith_iff _ _).mpr ⟨ds, rfl⟩)]
      have h10 : ((" - Season ").data).length = 10 := rfl
      have hdrop : ((" - Season ").data ++ ds).drop 10 = ds := by
        rw [← h10]; exact List.drop_left _ _
      rw [hdrop, hn]
    · obtain ⟨hpred, hd⟩ := seasonPred_of_specials cs pre hnl hcs
      have hmem : pre.length ∈ (List.range (cs.length + 1)).reverse := by
        rw [List.mem_reverse, List.mem_range, hcs]
        simp only [List.length_append]
        omega
      have hex : ((List.range (cs.length + 1)).reverse.find?
          (fun i => (cs.take i).all dotChar && seasonRest (cs.drop i))).isSome = true :=
        List.find?_isSome.mpr ⟨pre.length, hmem, hpred⟩
      obtain ⟨j, hj⟩ := Option.isSome_iff_exists.mp hex
      have hpj := List.find?_some hj
      simp only [Bool.and_eq_true] at hpj
      have hji : j = pre.length := by
        refine seasonSplit_unique cs j pre.length hpj.2 ?_
        have := hpred
        simp only [Bool.and_eq_true] at this
        exact this.2
      subst hji
      have hval : seasonFind cs = (if listStartsWith (" - Season ").data (cs.drop pre.length)
          then some (digitsToNat ((cs.drop pre.length).drop 10)) else some 0) := by
        rw [seasonFind, hj]
        try rfl
        try exact rfl
      have hif : listStartsWith (" - Season ").data (cs.drop pre.length) = false := by
        rw [hd]; decide
      rw [hval, hif]
      simp only [Bool.false_eq_true, if_false]
      rw [hn]

/-- Claim C6: a raw title matching the season-suffix pattern
`<anything> - Season N` / `<anything> - Specials` parses to effective type
`Season` with the corresponding season number (`0` for Specials), and a
title matching neither shape keeps the declared type with no season
number. -/
theorem c6_season_reclassification (pid : Nat) (ct t : String) (mq : Bool) :
    (∀ n, SeasonSuffixSpec t.data n →
      (Content.parse pid ct t mq).content_type = "Season" ∧
      (Content.parse pid ct t mq).season_number = some n) ∧
    ((∀ n, ¬ SeasonSuffixSpec t.data n) →
      (Content.parse pid ct t mq).content_type = ct ∧
      (Content.parse pid ct t mq).season_number = none) := by
  constructor
  · intro n hn
    have hf : seasonFind t.data = some n := (seasonFind_iff_spec _ _).mpr hn
    have hp : Content.parse pid ct t mq = .mk pid "Season" t false
        (mq || strContains ": " t)
        (match yearlessFind t.data with
         | none => t
         | some i => String.mk (t.data.take i)) (some n) [] := by
      rw [Content.parse, hf]
    rw [hp]
    exact ⟨rfl, rfl⟩
  · intro hnone
    have hf : seasonFind t.data = none := by
      cases hc : seasonFind t.data with
      | none => rfl
      | some m => exact absurd ((seasonFind_iff_spec _ _).mp hc) (hnone m)
    have hp : Content.parse pid ct t mq = .mk pid ct t false
        (mq || strContains ": " t)
        (match yearlessFind t.data with
         | none => t
         | some i => String.mk (t.data.take i)) none [] := by
      rw [Content.parse, hf]
    rw [hp]
    exact ⟨rfl, rfl⟩

/-- Claim C6 (witness: a Season-suffix title and a Specials title). -/
theorem c6_season_reclassification_witness :
    ((Content.parse 1 "Show" "Foo - Season 3" false).content_type = "Season" ∧
      (Content.parse 1 "Show" "Foo - Season 3" false).season_number = some 3) ∧
    ((Content.parse 2 "Show" "Foo (2020) - Specials" false).content_type = "Season" ∧
      (Content.parse 2 "Show" "Foo (2020) - Specials" false).season_number = some 0) :=
  ⟨(c6_season_reclassification 1 "Show" "Foo - Season 3" false).1 3
      (Or.inl ⟨"Foo".data, ['3'], by decide, by decide, by decide, by decide, by decide⟩),
    (c6_season_reclassification 2 "Show" "Foo (2020) - Specials" false).1 0
      (Or.inr ⟨⟨"Foo (2020)".data, by decide, by decide⟩, rfl⟩)⟩

/-- Claim C3 (witness for the amended theorem: a fresh season added to a
registry with one matching show ends up a child of exactly that show). -/
theorem c3_attach_at_most_one_show_witness :
    (ContentList.mk [] []
        [(Content.parse 1 "Show" "Bar (2020)" false).add_sub_content
            (Content.parse 2 "Show" "Bar (2020) - Season 1" false)]
        [Content.parse 2 "Show" "Bar (2020) - Season 1" false]).shows.countP
      (fun s => hasChildPid s
        (Content.parse 2 "Show" "Bar (2020) - Season 1" false).poster_id) ≤ 1 :=
  c3_attach_at_most_one_show
    ⟨[], [], [Content.parse 1 "Show" "Bar (2020)" false], []⟩
    (Content.parse 2 "Show" "Bar (2020) - Season 1" false)
    ⟨[], [],
      [(Content.parse 1 "Show" "Bar (2020)" false).add_sub_content
          (Content.parse 2 "Show" "Bar (2020) - Season 1" false)],
      [Content.parse 2 "Show" "Bar (2020) - Season 1" false]⟩
    (by rfl) (by decide)
